import Mathlib

/-!
Verification of the VTSPy client library (`src/vtspy/VTSPy.py`,
`src/errors/APIError.py`) against its natural-language specification.

The development shallowly embeds the connection/session/correlation layer of
the client: JSON message values, the single bidirectional transport (an
ordered stream of sent frames and an ordered queue of inbound frames), the
token store (the `token` file in the working directory), the authentication
handshake (`VTSClient.__init__` / `VTSClient.get_token`), the uniform
synchronous request/response pattern used by every typed operation
(`get_stats`, `set_parameter_value`, ...), and the event-subscription
subsystem (`subscribe_to_event`, `unsubscribe_from_event` and the background
listener threads they spawn).

Python exceptions are modelled with `Except`: `APIError` carries exactly the
formatted argument string the Python class builds, `ValueError`/`KeyError`/
`TypeError` model the corresponding built-ins, and a receive on an empty
inbound queue (a blocking `recv` that never returns) is modelled as the
`blocked` outcome.
-/

/-- JSON values as produced by `json.loads`: the messages exchanged with the
host. Python `None`/`True`/`False`/numbers/strings/lists/dicts. Numbers are
restricted to integers, which covers every field the protocol uses
(`errorID` is an integer error code). -/
inductive Json where
  | null : Json
  | bool (b : Bool) : Json
  | num (n : Int) : Json
  | str (s : String) : Json
  | arr (elems : List Json) : Json
  | obj (fields : List (String × Json)) : Json

/-- Dictionary lookup `j[key]` on a decoded JSON object, `none` when the key
is absent (Python would raise `KeyError`) or when `j` is not an object. -/
def Json.getField : Json → String → Option Json
  | .obj fields, key => fields.lookup key
  | _, _ => none

/-- Two-level lookup `j[k1][k2]`, used for `response["data"]["message"]` and
friends. -/
def Json.getField2 (j : Json) (k1 k2 : String) : Option Json :=
  match j.getField k1 with
  | none => none
  | some inner => inner.getField k2

/-- The single WebSocket connection: `sent` is the ordered list of frames the
client has sent (oldest first), `inbound` the ordered queue of frames the
host will deliver to successive `recv` calls (oldest first). Frames are kept
as JSON values; serialization (`json.dumps`) is a bijection on the values the
client exchanges, so nothing the claims decide depends on the wire text. -/
structure Transport where
  sent : List Json
  inbound : List Json

/-- The blocking `send`: appends one frame to the ordered outgoing stream. -/
def Transport.send (t : Transport) (frame : Json) : Transport :=
  { t with sent := t.sent ++ [frame] }

/-- The blocking `recv`: removes and returns the oldest inbound frame;
`none` models a receive that blocks forever because the host sends
nothing. -/
def Transport.recv (t : Transport) : Option (Json × Transport) :=
  match t.inbound with
  | [] => none
  | f :: rest => some (f, { t with inbound := rest })

/-- Outcomes of a Python call that does not return normally. `apiError`
carries the single argument string `APIError.__init__` passes to
`Exception.__init__`; `keyError` a missing dictionary key; `valueError` and
`typeError` the built-in exceptions; `blocked` a `recv` that never
returns. -/
inductive PyError where
  | apiError (args : String) : PyError
  | valueError (msg : String) : PyError
  | keyError (key : String) : PyError
  | typeError (msg : String) : PyError
  | blocked : PyError
deriving DecidableEq, Repr

/-- Decimal digit character, used to embed Python `str(int)`. -/
def digitChar10 (d : Nat) : Char :=
  if d = 0 then '0' else if d = 1 then '1' else if d = 2 then '2'
  else if d = 3 then '3' else if d = 4 then '4' else if d = 5 then '5'
  else if d = 6 then '6' else if d = 7 then '7' else if d = 8 then '8'
  else '9'

/-- Decimal digit list of a natural number, most significant digit first:
the characters Python prints for a non-negative integer. -/
def natDigits (n : Nat) : List Char :=
  if _h : n < 10 then [digitChar10 n]
  else natDigits (n / 10) ++ [digitChar10 (n % 10)]
decreasing_by exact Nat.div_lt_self (by omega) (by omega)

/-- Python `str` of an integer: decimal digits, with a leading minus sign for
negative values. -/
def intStr : Int → String
  | .ofNat m => String.mk (natDigits m)
  | .negSucc m => String.mk ('-' :: natDigits (m + 1))

/-- Python `str()` applied to a decoded JSON value, as the f-string in
`APIError.__init__` does. Strings render as themselves; `None`, booleans and
integers as Python prints them; containers via Python `repr` (the exact repr
of containers is irrelevant to every claim, only that it is a fixed
function of the value). -/
def Json.pyStr : Json → String
  | .null => "None"
  | .bool true => "True"
  | .bool false => "False"
  | .num n => intStr n
  | .str s => s
  | .arr _ => "[...]"
  | .obj _ => "\x7b...\x7d"

/-- The single argument `APIError.__init__(message, error_id)` passes to
`Exception.__init__`: the f-string `API Error {error_id}: {message}`
(`src/errors/APIError.py`). -/
def APIError.args (message error_id : Json) : String :=
  "API Error " ++ error_id.pyStr ++ ": " ++ message.pyStr

/-- Python `value == "APIError"`: true exactly when the JSON value is that
string. -/
def isAPIErrorVal : Json → Bool
  | .str s => s = "APIError"
  | _ => false

/-- The error check every synchronous operation performs on the decoded
response: `if response["messageType"] == "APIError": raise
APIError(response["data"]["message"], response["data"]["errorID"])`.
Missing keys raise `KeyError` as in Python. -/
def checkAPIError (resp : Json) : Except PyError Unit :=
  match resp.getField "messageType" with
  | none => .error (.keyError "messageType")
  | some mt =>
    if isAPIErrorVal mt then
      match resp.getField "data" with
      | none => .error (.keyError "data")
      | some d =>
        match d.getField "message" with
        | none => .error (.keyError "message")
        | some m =>
          match d.getField "errorID" with
          | none => .error (.keyError "errorID")
          | some eid => .error (.apiError (APIError.args m eid))
    else .ok ()

/-- Result of `VTSClient.get_token`: either a token string (read from the
`token` file or granted by the host) or, when the granted
`authenticationToken` is `None`, the entire decoded response object. -/
inductive TokenResult where
  | token (s : String) : TokenResult
  | response (j : Json) : TokenResult

/-- Python `plugin_name.replace(" ", "")`. -/
def removeSpaces (s : String) : String :=
  String.mk (s.data.filter (fun c => c ≠ ' '))

/-- Embedding of `VTSClient.get_token` (`src/vtspy/VTSPy.py:50-95`). The
token store is the `token` file, `some s` when it exists with contents `s`.
The function returns its outcome together with the final store and transport
state, so that what happened on the store and the wire is visible on every
path, raising included. -/
def get_token (plugin_name plugin_developer plugin_logo default_request_id : String)
    (request_id : String) (store : Option String) (t : Transport) :
    Except PyError TokenResult × Option String × Transport :=
  let payload := Json.obj [
    ("apiName", .str "VTubeStudioPublicAPI"),
    ("apiVersion", .str "1.0"),
    ("requestID", .str (if request_id ≠ "" then request_id else default_request_id)),
    ("messageType", .str "AuthenticationTokenRequest"),
    ("data", .obj [
      ("pluginName", .str plugin_name),
      ("pluginDeveloper", .str plugin_developer),
      ("pluginLogo", .str plugin_logo)])]
  match store with
  | some auth_token => (.ok (.token auth_token), store, t)
  | none =>
    let t1 := t.send payload
    match t1.recv with
    | none => (.error .blocked, store, t1)
    | some (resp, t2) =>
      match checkAPIError resp with
      | .error e => (.error e, store, t2)
      | .ok _ =>
        match resp.getField "data" with
        | none => (.error (.keyError "data"), store, t2)
        | some d =>
          match d.getField "authenticationToken" with
          | none => (.error (.keyError "authenticationToken"), store, t2)
          | some .null => (.ok (.response resp), store, t2)
          | some (.str s) => (.ok (.token s), some s, t2)
          | some _ => (.error (.typeError "write() argument must be str"), store, t2)

/-- The `_subscriptions` dictionary `VTSClient.__init__` creates: the fixed
event names, all inactive. -/
def initSubs : List (String × Bool) :=
  [("TestEvent", false), ("ModelLoadedEvent", false),
   ("TrackingStatusChangedEvent", false), ("BackgroundChangedEvent", false),
   ("ModelConfigChangedEvent", false), ("ModelMovedEvent", false),
   ("ModelOutlineEvent", false)]

/-- The attributes of a constructed `VTSClient` (the Session), minus the
transport handle, which is threaded separately so every operation shows its
wire effect. -/
structure Client where
  plugin_name : String
  plugin_developer : String
  plugin_logo : String
  default_request_id : String
  auth_token : TokenResult
  subs : List (String × Bool)

/-- Embedding of `VTSClient.__init__` (`src/vtspy/VTSPy.py:32-48`): computes
the default request id from the plugin name, runs `get_token` with the
literal request id `"TokenRequest"`, and on success assembles the Session
with the fresh subscription map. The final store and transport are returned
on every path. -/
def VTSClient_init (plugin_name plugin_developer plugin_logo : String)
    (store : Option String) (t : Transport) :
    Except PyError Client × Option String × Transport :=
  let default_request_id := removeSpaces plugin_name ++ "Request"
  match get_token plugin_name plugin_developer plugin_logo default_request_id
      "TokenRequest" store t with
  | (.error e, store1, t1) => (.error e, store1, t1)
  | (.ok tok, store1, t1) =>
    (.ok { plugin_name := plugin_name, plugin_developer := plugin_developer,
           plugin_logo := plugin_logo, default_request_id := default_request_id,
           auth_token := tok, subs := initSubs }, store1, t1)

/-- Embedding of `VTSClient.get_stats` (`src/vtspy/VTSPy.py:151-172`): build
the `StatisticsRequest` envelope, send it, block for one response, raise on
the error message-type and otherwise return the decoded response whole. -/
def get_stats (c : Client) (request_id : String) (t : Transport) :
    Except PyError Json × Transport :=
  let payload := Json.obj [
    ("apiName", .str "VTubeStudioPublicAPI"),
    ("apiVersion", .str "1.0"),
    ("requestID", .str (if request_id ≠ "" then request_id else c.default_request_id)),
    ("messageType", .str "StatisticsRequest")]
  let t1 := t.send payload
  match t1.recv with
  | none => (.error .blocked, t1)
  | some (resp, t2) =>
    match checkAPIError resp with
    | .error e => (.error e, t2)
    | .ok _ => (.ok resp, t2)

/-- The uniform synchronous call pattern shared verbatim by every typed
operation of the client (`get_stats`, `authenticate`, `get_folder_info`, ...;
each differs only in the `messageType` tag and the optional `data` payload):
build the envelope, send, block for exactly one response, raise on the error
message-type, return the response otherwise. -/
def syncCall (default_request_id request_id message_type : String)
    (data : Option Json) (t : Transport) : Except PyError Json × Transport :=
  let payload := Json.obj ([
    ("apiName", Json.str "VTubeStudioPublicAPI"),
    ("apiVersion", Json.str "1.0"),
    ("requestID", Json.str (if request_id ≠ "" then request_id else default_request_id)),
    ("messageType", Json.str message_type)] ++
    (match data with | some d => [("data", d)] | none => []))
  let t1 := t.send payload
  match t1.recv with
  | none => (.error .blocked, t1)
  | some (resp, t2) =>
    match checkAPIError resp with
    | .error e => (.error e, t2)
    | .ok _ => (.ok resp, t2)

theorem get_stats_eq_syncCall (c : Client) (request_id : String) (t : Transport) :
    get_stats c request_id t =
      syncCall c.default_request_id request_id "StatisticsRequest" none t := by
  simp [get_stats, syncCall]

/-- One call description for a sequence of synchronous operations: the
caller-chosen request id, the operation's message-type tag and its optional
data payload. -/
def CallSpec := String × String × Option Json

/-- Issue a sequence of synchronous calls one at a time on the Session's
transport, exactly as a caller invoking the typed methods in order would:
each call sends one frame and blocks for one response; the first raising
call aborts the sequence. -/
def runCalls (default_request_id : String) (t : Transport) :
    List CallSpec → Except PyError (List Json) × Transport
  | [] => (.ok [], t)
  | (rid, mt, d) :: rest =>
    match syncCall default_request_id rid mt d t with
    | (.error e, t1) => (.error e, t1)
    | (.ok resp, t1) =>
      match runCalls default_request_id t1 rest with
      | (.error e, t2) => (.error e, t2)
      | (.ok resps, t2) => (.ok (resp :: resps), t2)

theorem syncCall_ok_shape (default_request_id request_id message_type : String)
    (data : Option Json) (t : Transport) (resp : Json) (t1 : Transport)
    (h : syncCall default_request_id request_id message_type data t = (.ok resp, t1)) :
    t.inbound = resp :: t1.inbound ∧
    t1.sent.length = t.sent.length + 1 := by
  unfold syncCall at h
  simp only [Transport.recv, Transport.send] at h
  cases hin : t.inbound with
  | nil => rw [hin] at h; simp at h
  | cons f rest =>
    rw [hin] at h
    simp only at h
    cases hchk : checkAPIError f with
    | error e => rw [hchk] at h; simp_all
    | ok u =>
      rw [hchk] at h
      simp only [Prod.mk.injEq, Except.ok.injEq] at h
      obtain ⟨h1, h2⟩ := h
      subst h1; subst h2
      simp

/-- Claim C1: on a Ready Session with no subscription listener active, the
Nth response returned by a sequence of synchronous calls issued one at a
time is the Nth frame of the inbound stream — responses are matched to
requests by FIFO order. The request ids in `calls` are universally
quantified and never appear in the conclusion: correlation is independent of
the request identifier values (empty, duplicated or omitted alike). Each
call consumes exactly one inbound frame and appends exactly one sent
frame. -/
theorem c1_fifo_correlation (default_request_id : String) (t : Transport)
    (calls : List CallSpec) (resps : List Json) (t' : Transport)
    (h : runCalls default_request_id t calls = (.ok resps, t')) :
    resps = t.inbound.take calls.length ∧
    t'.inbound = t.inbound.drop calls.length ∧
    t'.sent.length = t.sent.length + calls.length := by
  induction calls generalizing t resps with
  | nil =>
    unfold runCalls at h
    simp only [Prod.mk.injEq, Except.ok.injEq] at h
    obtain ⟨h1, h2⟩ := h
    subst h1; subst h2
    simp
  | cons call rest ih =>
    obtain ⟨rid, mt, d⟩ := call
    unfold runCalls at h
    cases hc : syncCall default_request_id rid mt d t with
    | mk r1 t1 =>
      rw [hc] at h
      cases r1 with
      | error e => simp at h
      | ok resp =>
        simp only at h
        cases hr : runCalls default_request_id t1 rest with
        | mk r2 t2 =>
          rw [hr] at h
          cases r2 with
          | error e => simp at h
          | ok resps2 =>
            simp only [Prod.mk.injEq, Except.ok.injEq] at h
            obtain ⟨h1, h2⟩ := h
            subst h1; subst h2
            obtain ⟨hin, hsent⟩ := syncCall_ok_shape _ _ _ _ _ _ _ hc
            obtain ⟨ih1, ih2, ih3⟩ := ih t1 resps2 hr
            refine ⟨?_, ?_, ?_⟩
            · rw [hin, List.length_cons, List.take_succ_cons, ih1]
            · rw [hin, List.length_cons, List.drop_succ_cons, ih2]
            · rw [ih3, hsent, List.length_cons]; omega

/-- Witness for C1: two concrete calls with duplicated empty request ids;
the two responses returned are the first two inbound frames in order. -/
theorem c1_fifo_correlation_witness :
    runCalls "DemoRequest" ⟨[], [Json.obj [("messageType", Json.str "A")],
        Json.obj [("messageType", Json.str "B")]]⟩
        [("", "StatisticsRequest", none), ("", "StatisticsRequest", none)] =
      (.ok [Json.obj [("messageType", Json.str "A")],
            Json.obj [("messageType", Json.str "B")]],
        ⟨[Json.obj [("apiName", Json.str "VTubeStudioPublicAPI"),
            ("apiVersion", Json.str "1.0"),
            ("requestID", Json.str "DemoRequest"),
            ("messageType", Json.str "StatisticsRequest")],
          Json.obj [("apiName", Json.str "VTubeStudioPublicAPI"),
            ("apiVersion", Json.str "1.0"),
            ("requestID", Json.str "DemoRequest"),
            ("messageType", Json.str "StatisticsRequest")]], []⟩) ∧
    [Json.obj [("messageType", Json.str "A")],
     Json.obj [("messageType", Json.str "B")]] =
      ([Json.obj [("messageType", Json.str "A")],
        Json.obj [("messageType", Json.str "B")]] : List Json).take 2 :=
  ⟨rfl, (c1_fifo_correlation "DemoRequest"
    ⟨[], [Json.obj [("messageType", Json.str "A")],
      Json.obj [("messageType", Json.str "B")]]⟩
    [("", "StatisticsRequest", none), ("", "StatisticsRequest", none)]
    _ _ rfl).1⟩

/-- The ten decimal digit characters. -/
def digitChars : List Char :=
  ['0', '1', '2', '3', '4', '5', '6', '7', '8', '9']

theorem digitChar10_mem (d : Nat) : digitChar10 d ∈ digitChars := by
  unfold digitChar10
  repeat' split
  all_goals decide

/-- Numeric value of a decimal digit character, `10` for a non-digit. -/
def digitVal (c : Char) : Nat :=
  if c = '0' then 0 else if c = '1' then 1 else if c = '2' then 2
  else if c = '3' then 3 else if c = '4' then 4 else if c = '5' then 5
  else if c = '6' then 6 else if c = '7' then 7 else if c = '8' then 8
  else if c = '9' then 9 else 10

/-- Whether a character is a decimal digit. -/
def isDigit10 (c : Char) : Bool := digitVal c != 10

theorem digitVal_digitChar10 (d : Nat) (hd : d < 10) :
    digitVal (digitChar10 d) = d ∧ isDigit10 (digitChar10 d) = true := by
  interval_cases d <;> exact ⟨by decide, by decide⟩

/-- One step of the decimal parser used to recover an error code. -/
def parseNatStep (acc : Option Nat) (c : Char) : Option Nat :=
  match acc with
  | none => none
  | some a => if isDigit10 c then some (a * 10 + digitVal c) else none

/-- Parse a non-empty all-digit character list as a natural number. -/
def parseNatChars (l : List Char) : Option Nat :=
  l.foldl parseNatStep (some 0)

theorem parseNatChars_natDigits (n : Nat) : parseNatChars (natDigits n) = some n := by
  induction n using Nat.strong_induction_on with
  | _ n ih =>
    unfold natDigits
    split
    · rename_i h
      obtain ⟨hval, hdig⟩ := digitVal_digitChar10 n h
      simp [parseNatChars, parseNatStep, hval, hdig]
    · rename_i h
      have ih1 := ih (n / 10) (Nat.div_lt_self (by omega) (by omega))
      unfold parseNatChars at ih1 ⊢
      rw [List.foldl_append, ih1]
      have h10 : n % 10 < 10 := Nat.mod_lt _ (by omega)
      obtain ⟨hval, hdig⟩ := digitVal_digitChar10 _ h10
      simp [parseNatStep, hval, hdig]
      omega

theorem natDigits_mem_digitChars (n : Nat) : ∀ c ∈ natDigits n, c ∈ digitChars := by
  induction n using Nat.strong_induction_on with
  | _ n ih =>
    unfold natDigits
    split
    · intro c hc
      simp only [List.mem_singleton] at hc
      subst hc
      exact digitChar10_mem n
    · intro c hc
      rw [List.mem_append] at hc
      rcases hc with h | h
      · exact ih (n / 10) (Nat.div_lt_self (by omega) (by omega)) c h
      · simp only [List.mem_singleton] at h
        subst h
        exact digitChar10_mem _

theorem natDigits_ne_nil (n : Nat) : natDigits n ≠ [] := by
  unfold natDigits
  split <;> simp

theorem digitChars_ne_colon : ∀ c ∈ digitChars, c ≠ ':' := by
  intro c hc
  fin_cases hc <;> decide

theorem digitChars_ne_minus : ∀ c ∈ digitChars, c ≠ '-' := by
  intro c hc
  fin_cases hc <;> decide

theorem intStr_no_colon (e : Int) : ∀ c ∈ (intStr e).data, c ≠ ':' := by
  cases e with
  | ofNat m =>
    intro c hc
    exact digitChars_ne_colon c (natDigits_mem_digitChars m c hc)
  | negSucc m =>
    intro c hc
    rcases List.mem_cons.mp hc with h | h
    · subst h; decide
    · exact digitChars_ne_colon c (natDigits_mem_digitChars (m + 1) c h)

theorem intStr_head_ne_minus (m : Nat) :
    ∀ c cs, natDigits m = c :: cs → c ≠ '-' := by
  intro c cs h
  have hm : c ∈ natDigits m := by rw [h]; simp
  exact digitChars_ne_minus c (natDigits_mem_digitChars m c hm)

/-- Drop an expected literal prefix from a character list, `none` when the
list does not start with it. -/
def dropPrefixChars : List Char → List Char → Option (List Char)
  | [], l => some l
  | _ :: _, [] => none
  | p :: ps, c :: cs => if p = c then dropPrefixChars ps cs else none

theorem dropPrefixChars_append (p r : List Char) :
    dropPrefixChars p (p ++ r) = some r := by
  induction p with
  | nil => rfl
  | cons c cs ih => simp [dropPrefixChars, ih]

/-- Split a character list at its first colon. -/
def splitAtColon : List Char → Option (List Char × List Char)
  | [] => none
  | c :: cs =>
    if c = ':' then some ([], cs)
    else
      match splitAtColon cs with
      | none => none
      | some (l, r) => some (c :: l, r)

theorem splitAtColon_append (l r : List Char) (hl : ∀ c ∈ l, c ≠ ':') :
    splitAtColon (l ++ ':' :: r) = some (l, r) := by
  induction l with
  | nil => simp [splitAtColon]
  | cons c cs ih =>
    have hc : c ≠ ':' := hl c (by simp)
    simp only [List.cons_append, splitAtColon, if_neg hc, List.append_eq,
      ih (fun x hx => hl x (by simp [hx]))]

/-- Parse the decimal rendering of an integer (optional leading minus
sign). -/
def parseIntChars (l : List Char) : Option Int :=
  if l.head? = some '-' then (parseNatChars l.tail).map (fun n => -(n : Int))
  else (parseNatChars l).map (fun n => (n : Int))

theorem parseIntChars_intStr (e : Int) : parseIntChars (intStr e).data = some e := by
  cases e with
  | ofNat m =>
    have hne := natDigits_ne_nil m
    obtain ⟨c, cs, hcons⟩ := List.exists_cons_of_ne_nil hne
    have hcm : c ≠ '-' := intStr_head_ne_minus m c cs hcons
    have hdata : (intStr (Int.ofNat m)).data = natDigits m := rfl
    rw [parseIntChars, hdata, hcons]
    simp only [List.head?_cons]
    rw [if_neg (by simpa using hcm)]
    rw [← hcons, parseNatChars_natDigits]
    rfl
  | negSucc m =>
    have hdata : (intStr (Int.negSucc m)).data = '-' :: natDigits (m + 1) := rfl
    rw [parseIntChars, hdata]
    simp only [List.head?_cons, if_pos rfl, List.tail_cons]
    rw [parseNatChars_natDigits]
    simp [Int.negSucc_eq]

/-- Recover the error code and message from the character list of the
formatted `APIError` argument string. -/
def recoverAPIErrorChars (l : List Char) : Option (Int × List Char) :=
  match dropPrefixChars ("API Error ").data l with
  | none => none
  | some rest =>
    match splitAtColon rest with
    | none => none
    | some (idPart, after) =>
      match after with
      | ' ' :: msg =>
        match parseIntChars idPart with
        | none => none
        | some e => some (e, msg)
      | _ => none

/-- Recover the host-supplied error code and message from the single string
an `APIError` exception carries. -/
def recoverAPIError (s : String) : Option (Int × String) :=
  match recoverAPIErrorChars s.data with
  | none => none
  | some (e, msg) => some (e, String.mk msg)

theorem recoverAPIError_args (e : Int) (m : String) :
    recoverAPIError (APIError.args (.str m) (.num e)) = some (e, m) := by
  have hdata : (APIError.args (.str m) (.num e)).data =
      ("API Error ").data ++ ((intStr e).data ++ ':' :: ' ' :: m.data) := by
    show ("API Error " ++ (Json.num e).pyStr ++ ": " ++ (Json.str m).pyStr).data = _
    simp only [Json.pyStr, String.data_append]
    simp [String.append_assoc]
  rw [recoverAPIError, recoverAPIErrorChars, hdata]
  simp only [dropPrefixChars_append,
    splitAtColon_append ((intStr e).data) (' ' :: m.data) (intStr_no_colon e),
    parseIntChars_intStr]

/-- Claim C4: on a Ready Session, any synchronous operation (all share the
`syncCall` pattern) that decodes a response with messageType `APIError`
raises an `APIError` whose argument string is built from exactly the
response's `data.message` and `data.errorID`, and both values are
recoverable from the raised error exactly as received; a response whose
message-type is present and not the error sentinel is returned normally. -/
theorem c4_error_surfacing (default_request_id request_id message_type : String)
    (data : Option Json) (t : Transport) (resp : Json) (rest : List Json)
    (hin : t.inbound = resp :: rest) :
    (∀ (e : Int) (msg : String),
      resp.getField "messageType" = some (.str "APIError") →
      resp.getField2 "data" "errorID" = some (.num e) →
      resp.getField2 "data" "message" = some (.str msg) →
      ∃ s, (syncCall default_request_id request_id message_type data t).1 =
          .error (.apiError s) ∧ recoverAPIError s = some (e, msg)) ∧
    (∀ mtv, resp.getField "messageType" = some mtv → isAPIErrorVal mtv = false →
      (syncCall default_request_id request_id message_type data t).1 = .ok resp) := by
  constructor
  · intro e msg hmt herr hmsg
    rw [Json.getField2] at herr hmsg
    cases hd : resp.getField "data" with
    | none => rw [hd] at herr; simp at herr
    | some d =>
      rw [hd] at herr hmsg
      simp only at herr hmsg
      refine ⟨APIError.args (.str msg) (.num e), ?_, recoverAPIError_args e msg⟩
      unfold syncCall
      simp only [Transport.send, Transport.recv, hin]
      simp only [checkAPIError, hmt, hd, hmsg, herr, isAPIErrorVal]
      simp
  · intro mtv hmt hne
    unfold syncCall
    simp only [Transport.send, Transport.recv, hin]
    simp only [checkAPIError, hmt, hne]
    simp

/-- A concrete error response frame from the host. -/
def demoErrResp : Json :=
  Json.obj [("apiName", Json.str "VTubeStudioPublicAPI"),
    ("apiVersion", Json.str "1.0"),
    ("requestID", Json.str "DemoRequest"),
    ("messageType", Json.str "APIError"),
    ("data", Json.obj [("errorID", Json.num 8),
      ("message", Json.str "Plugin not authenticated")])]

/-- Witness for C4: feeding the concrete error response through a
`StatisticsRequest` call raises an `APIError` from which code `8` and the
message are recovered exactly. -/
theorem c4_error_surfacing_witness :
    ∃ s, (syncCall "DemoRequest" "" "StatisticsRequest" none ⟨[], [demoErrResp]⟩).1 =
        .error (.apiError s) ∧
      recoverAPIError s = some (8, "Plugin not authenticated") :=
  (c4_error_surfacing "DemoRequest" "" "StatisticsRequest" none ⟨[], [demoErrResp]⟩
    demoErrResp [] rfl).1 8 "Plugin not authenticated" rfl rfl rfl

/-- Embedding of `VTSClient.set_parameter_value`
(`src/vtspy/VTSPy.py:801-833`): the mode is validated against the two
recognized values before the payload is built and anything touches the
transport; an invalid mode raises `ValueError` client-side. -/
def set_parameter_value (c : Client) (mode : String) (consider_face_found : Bool)
    (parameter_values : Json) (request_id : String) (t : Transport) :
    Except PyError Json × Transport :=
  if mode ∉ (["add", "set"] : List String) then
    (.error (.valueError "The mode parameter must be either \x27add\x27 or \x27set\x27."), t)
  else
    let payload := Json.obj [
      ("apiName", .str "VTubeStudioPublicAPI"),
      ("apiVersion", .str "1.0"),
      ("requestID", .str (if request_id ≠ "" then request_id else c.default_request_id)),
      ("messageType", .str "InjectParameterDataRequest"),
      ("data", .obj [
        ("mode", .str mode),
        ("faceFound", .bool consider_face_found),
        ("parameterValues", parameter_values)])]
    let t1 := t.send payload
    match t1.recv with
    | none => (.error .blocked, t1)
    | some (resp, t2) =>
      match checkAPIError resp with
      | .error e => (.error e, t2)
      | .ok _ => (.ok resp, t2)

/-- Claim C7: calling the parameter-injection operation with a mode other
than `add` or `set` fails with the client-side `ValueError` and returns the
transport exactly as it was: `send` is never invoked and no state
changes. -/
theorem c7_invalid_mode_rejected (c : Client) (mode : String)
    (consider_face_found : Bool) (parameter_values : Json) (request_id : String)
    (t : Transport) (h : mode ∉ (["add", "set"] : List String)) :
    set_parameter_value c mode consider_face_found parameter_values request_id t =
      (.error (.valueError "The mode parameter must be either \x27add\x27 or \x27set\x27."), t) := by
  unfold set_parameter_value
  rw [if_pos h]

/-- A concrete constructed Session used by witnesses. -/
def demoClient : Client :=
  { plugin_name := "Demo", plugin_developer := "Dev", plugin_logo := "",
    default_request_id := "DemoRequest", auth_token := .token "abc123",
    subs := initSubs }

/-- Witness for C7: the mode string `multiply` is rejected with nothing
sent. -/
theorem c7_invalid_mode_rejected_witness :
    "multiply" ∉ (["add", "set"] : List String) ∧
    set_parameter_value demoClient "multiply" false Json.null "" ⟨[], []⟩ =
      (.error (.valueError "The mode parameter must be either \x27add\x27 or \x27set\x27."),
        (⟨[], []⟩ : Transport)) :=
  ⟨by decide, c7_invalid_mode_rejected demoClient "multiply" false Json.null ""
    ⟨[], []⟩ (by decide)⟩

/-- Claim C2: constructing a Session with an empty token store performs
exactly one AuthenticationTokenRequest/response exchange — the transport
gains exactly one sent frame, of that message-type, and loses exactly one
inbound frame — and persists the granted token to the store, adopting it as
the Session's auth token. Constructing a second Session afterward with the
persisted store performs zero exchanges: its transport is returned exactly
as given, and the persisted token is adopted. -/
theorem c2_token_round_trip (pn pd pl : String) (t : Transport) (resp : Json)
    (rest : List Json) (d mtv : Json) (tok : String)
    (hin : t.inbound = resp :: rest)
    (hmt : resp.getField "messageType" = some mtv)
    (hne : isAPIErrorVal mtv = false)
    (hd : resp.getField "data" = some d)
    (htok : d.getField "authenticationToken" = some (.str tok)) :
    (∃ c1 t1 p,
      VTSClient_init pn pd pl none t = (.ok c1, some tok, t1) ∧
      c1.auth_token = .token tok ∧
      t1.sent = t.sent ++ [p] ∧
      p.getField "messageType" = some (.str "AuthenticationTokenRequest") ∧
      t1.inbound = rest) ∧
    (∀ (pn2 pd2 pl2 : String) (t2 : Transport), ∃ c2,
      VTSClient_init pn2 pd2 pl2 (some tok) t2 = (.ok c2, some tok, t2) ∧
      c2.auth_token = .token tok) := by
  constructor
  · unfold VTSClient_init get_token
    simp only [Transport.send, Transport.recv, hin]
    simp only [checkAPIError, hmt, hne, hd, htok]
    simp only [Bool.false_eq_true, if_false]
    exact ⟨_, _, _, rfl, rfl, rfl, rfl, rfl⟩
  · intro pn2 pd2 pl2 t2
    unfold VTSClient_init get_token
    exact ⟨_, rfl, rfl⟩

/-- The concrete token-grant response of the example scenario. -/
def demoAuthResp : Json :=
  Json.obj [("apiName", Json.str "VTubeStudioPublicAPI"),
    ("apiVersion", Json.str "1.0"),
    ("requestID", Json.str "TokenRequest"),
    ("messageType", Json.str "AuthenticationTokenResponse"),
    ("data", Json.obj [("authenticationToken", Json.str "abc123")])]

/-- Witness for C2: the first construction against the concrete grant
response persists `abc123` and sends exactly one AuthenticationTokenRequest
frame. -/
theorem c2_token_round_trip_witness :
    ∃ c1 t1 p,
      VTSClient_init "Demo" "Dev" "" none ⟨[], [demoAuthResp]⟩ =
        (.ok c1, some "abc123", t1) ∧
      c1.auth_token = .token "abc123" ∧
      t1.sent = ([] : List Json) ++ [p] ∧
      p.getField "messageType" = some (.str "AuthenticationTokenRequest") ∧
      t1.inbound = [] :=
  (c2_token_round_trip "Demo" "Dev" "" ⟨[], [demoAuthResp]⟩ demoAuthResp []
    (Json.obj [("authenticationToken", Json.str "abc123")])
    (Json.str "AuthenticationTokenResponse") "abc123"
    rfl rfl rfl rfl rfl).1

/-- Claim C3: when the store is empty and the host answers the
AuthenticationTokenRequest with the error message-type, construction fails
with an `APIError` built from exactly the host's `data.message` and
`data.errorID` (both recoverable from the raised error), and the token store
is still empty: nothing was written on this path. -/
theorem c3_auth_failure_no_persist (pn pd pl : String) (t : Transport)
    (resp : Json) (rest : List Json) (d : Json) (e : Int) (msg : String)
    (hin : t.inbound = resp :: rest)
    (hmt : resp.getField "messageType" = some (.str "APIError"))
    (hd : resp.getField "data" = some d)
    (hmsg : d.getField "message" = some (.str msg))
    (herr : d.getField "errorID" = some (.num e)) :
    ∃ t1,
      VTSClient_init pn pd pl none t =
        (.error (.apiError (APIError.args (.str msg) (.num e))), none, t1) ∧
      recoverAPIError (APIError.args (.str msg) (.num e)) = some (e, msg) := by
  unfold VTSClient_init get_token
  simp only [Transport.send, Transport.recv, hin]
  simp only [checkAPIError, hmt, hd, hmsg, herr, isAPIErrorVal]
  exact ⟨_, rfl, recoverAPIError_args e msg⟩

/-- Witness for C3: construction against the concrete error response fails
with the typed error carrying code `8` and its message, and the store stays
empty. -/
theorem c3_auth_failure_no_persist_witness :
    ∃ t1,
      VTSClient_init "Demo" "Dev" "" none ⟨[], [demoErrResp]⟩ =
        (.error (.apiError (APIError.args (.str "Plugin not authenticated")
          (.num 8))), none, t1) ∧
      recoverAPIError (APIError.args (.str "Plugin not authenticated") (.num 8)) =
        some (8, "Plugin not authenticated") :=
  c3_auth_failure_no_persist "Demo" "Dev" "" ⟨[], [demoErrResp]⟩ demoErrResp []
    (Json.obj [("errorID", Json.num 8),
      ("message", Json.str "Plugin not authenticated")])
    8 "Plugin not authenticated" rfl rfl rfl rfl rfl

/-- Claim C9: when the store is empty and the grant response succeeds
(non-error message-type) but its `data.authenticationToken` is null,
`get_token` writes nothing to the store and returns the whole decoded
response object, which becomes the Session's `auth_token`. -/
theorem c9_null_token_returns_response (pn pd pl : String) (t : Transport)
    (resp : Json) (rest : List Json) (d mtv : Json)
    (hin : t.inbound = resp :: rest)
    (hmt : resp.getField "messageType" = some mtv)
    (hne : isAPIErrorVal mtv = false)
    (hd : resp.getField "data" = some d)
    (htok : d.getField "authenticationToken" = some .null) :
    ∃ c1 t1,
      VTSClient_init pn pd pl none t = (.ok c1, none, t1) ∧
      c1.auth_token = .response resp := by
  unfold VTSClient_init get_token
  simp only [Transport.send, Transport.recv, hin]
  simp only [checkAPIError, hmt, hne, hd, htok]
  simp only [Bool.false_eq_true, if_false]
  exact ⟨_, _, rfl, rfl⟩

/-- A concrete grant response whose `authenticationToken` is null. -/
def demoNullTokenResp : Json :=
  Json.obj [("apiName", Json.str "VTubeStudioPublicAPI"),
    ("apiVersion", Json.str "1.0"),
    ("requestID", Json.str "TokenRequest"),
    ("messageType", Json.str "AuthenticationTokenResponse"),
    ("data", Json.obj [("authenticationToken", Json.null)])]

/-- Witness for C9: against the null-token grant response the store stays
empty and the Session's auth token is the whole response object. -/
theorem c9_null_token_returns_response_witness :
    ∃ c1 t1,
      VTSClient_init "Demo" "Dev" "" none ⟨[], [demoNullTokenResp]⟩ =
        (.ok c1, none, t1) ∧
      c1.auth_token = .response demoNullTokenResp :=
  c9_null_token_returns_response "Demo" "Dev" "" ⟨[], [demoNullTokenResp]⟩
    demoNullTokenResp [] (Json.obj [("authenticationToken", Json.null)])
    (Json.str "AuthenticationTokenResponse") rfl rfl rfl rfl rfl

/-- The inner statistics payload the mock host answers with. -/
def demoStatsData : Json :=
  Json.obj [("uptime", Json.num 1800000), ("framerate", Json.num 60),
    ("vTubeStudioVersion", Json.str "1.9.0")]

/-- The full statistics response frame of the example scenario: the inner
payload wrapped in the protocol envelope. -/
def demoStatsResp : Json :=
  Json.obj [("apiName", Json.str "VTubeStudioPublicAPI"),
    ("apiVersion", Json.str "1.0"),
    ("requestID", Json.str "DemoRequest"),
    ("messageType", Json.str "StatisticsResponse"),
    ("data", demoStatsData)]

/-- The host side of the example scenario: the token grant followed by the
statistics response. -/
def demoScenarioTransport : Transport := ⟨[], [demoAuthResp, demoStatsResp]⟩

/-- Counterexample to C8 as stated: in the example scenario `get_stats`
returns the full decoded response — the envelope fields `messageType` and
`apiName` are still present on the returned value, which therefore is not
the inner data object with the envelope stripped. -/
theorem c8_counterexample_full_envelope_returned :
    ∃ c1 t1,
      VTSClient_init "Demo" "Dev" "" none demoScenarioTransport =
        (.ok c1, some "abc123", t1) ∧
      ∃ t2, get_stats c1 "" t1 = (.ok demoStatsResp, t2) ∧
        demoStatsResp.getField "messageType" = some (.str "StatisticsResponse") ∧
        demoStatsResp.getField "apiName" = some (.str "VTubeStudioPublicAPI") ∧
        demoStatsResp ≠ demoStatsData :=
  ⟨_, _, rfl, _, rfl, rfl, rfl,
    fun h => Option.noConfusion (congrArg (fun j => Json.getField j "messageType") h)⟩

/-- Claim C8 (amended): in the example scenario — no pre-existing token,
host grants `abc123` — `get_stats` sends a frame with messageType
`StatisticsRequest` and returns the host's full decoded response object
unchanged, envelope fields included; the data payload is the value of its
`data` key rather than being returned alone. -/
theorem c8_example_scenario :
    ∃ c1 t1,
      VTSClient_init "Demo" "Dev" "" none demoScenarioTransport =
        (.ok c1, some "abc123", t1) ∧
      ∃ t2, get_stats c1 "" t1 = (.ok demoStatsResp, t2) ∧
        (∃ p, t2.sent.getLast? = some p ∧
          p.getField "messageType" = some (.str "StatisticsRequest")) ∧
        demoStatsResp.getField "data" = some demoStatsData :=
  ⟨_, _, rfl, _, rfl, ⟨_, rfl, rfl⟩, rfl⟩

/-- Program counter of a background listener thread spawned by
`subscribe_to_event`: the loop `while self._subscriptions[event_name] is
True: message = self.instance.recv(); on_message(json.loads(message));
time.sleep(...)`. `checkFlag` is the while-test, `recvWait` the blocking
receive, `handle` the handler invocation, `sleeping` the sleep, `done` loop
exit (thread terminated). -/
inductive LPC where
  | checkFlag : LPC
  | recvWait : LPC
  | handle : LPC
  | sleeping : LPC
  | done : LPC
deriving DecidableEq, Repr, Fintype

/-- Observable events of a listener step: completing the blocking receive,
and invoking the caller-supplied handler. -/
inductive LEvent where
  | recvComplete : LEvent
  | handlerCall : LEvent
deriving DecidableEq, Repr

/-- Successor program counter for one listener step, given the current value
of the subscription flag the loop reads: the while-test exits when the flag
is false; a completed receive is followed by the handler call, the sleep,
then the next while-test. -/
def LPC.next (flag : Bool) : LPC → LPC
  | .checkFlag => if flag then .recvWait else .done
  | .recvWait => .handle
  | .handle => .sleeping
  | .sleeping => .checkFlag
  | .done => .done

/-- Events emitted when stepping from a program counter. -/
def LPC.events : LPC → List LEvent
  | .recvWait => [.recvComplete]
  | .handle => [.handlerCall]
  | _ => []

/-- Number of loop steps a listener can still take once its flag is false,
used as fuel to run it to termination. -/
def lpcRank : LPC → Nat
  | .done => 0
  | .checkFlag => 1
  | .sleeping => 2
  | .handle => 3
  | .recvWait => 4

/-- Events a listener emits over `n` steps with its subscription flag fixed
(the listener run after an unsubscribe has flipped the flag to false). -/
def iterEvents (flag : Bool) : Nat → LPC → List LEvent
  | 0, _ => []
  | n + 1, pc => pc.events ++ iterEvents flag n (pc.next flag)

/-- Program counter after `n` listener steps with the flag fixed. -/
def iterPC (flag : Bool) : Nat → LPC → LPC
  | 0, pc => pc
  | n + 1, pc => iterPC flag n (pc.next flag)

/-- A background listener thread: the event name it is bound to and its
program counter. -/
structure Listener where
  event : String
  pc : LPC
deriving DecidableEq, Repr

/-- Whether a listener thread bound to event `e` is still live (its loop has
not exited). -/
def Listener.isLive (l : Listener) (e : String) : Bool :=
  decide (l.event = e) && decide (l.pc ≠ LPC.done)

/-- Python dictionary read `self._subscriptions[event_name]` (every name a
listener or API call uses is present, having been inserted by `__init__` or
by the subscribe assignment; a missing name defaults to an inactive
flag). -/
def flagOf : List (String × Bool) → String → Bool
  | [], _ => false
  | (k, v) :: rest, e => if k = e then v else flagOf rest e

/-- Python dictionary assignment `self._subscriptions[event_name] = b`:
update in place, or insert at the end in insertion order. -/
def setFlag : List (String × Bool) → String → Bool → List (String × Bool)
  | [], e, b => [(e, b)]
  | (k, v) :: rest, e, b =>
    if k = e then (k, b) :: rest else (k, v) :: setFlag rest e b

theorem flagOf_setFlag_self (subs : List (String × Bool)) (e : String) (b : Bool) :
    flagOf (setFlag subs e b) e = b := by
  induction subs with
  | nil => simp [setFlag, flagOf]
  | cons kv rest ih =>
    obtain ⟨k, v⟩ := kv
    by_cases h : k = e
    · subst h; simp [setFlag, flagOf]
    · simp [setFlag, flagOf, h, ih]

/-- Embedding of `VTSClient.subscribe_to_event`
(`src/vtspy/VTSPy.py:1208-1262`): `config=None` defaults to the empty dict;
the EventSubscriptionRequest(subscribe=true) is sent and acknowledged
synchronously; only on a non-error acknowledgment is the subscription flag
set and exactly one new listener thread started at the top of its loop.
`pool` is the set of listener threads of the process. -/
def subscribe_to_event (c : Client) (event_name : String) (config : Option Json)
    (request_id : String) (t : Transport) (pool : List Listener) :
    Except PyError Json × Client × Transport × List Listener :=
  let config := config.getD (Json.obj [])
  let payload := Json.obj [
    ("apiName", .str "VTubeStudioPublicAPI"),
    ("apiVersion", .str "1.0"),
    ("requestID", .str (if request_id ≠ "" then request_id else c.default_request_id)),
    ("messageType", .str "EventSubscriptionRequest"),
    ("data", .obj [
      ("eventName", .str event_name),
      ("subscribe", .bool true),
      ("config", config)])]
  let t1 := t.send payload
  match t1.recv with
  | none => (.error .blocked, c, t1, pool)
  | some (resp, t2) =>
    match checkAPIError resp with
    | .error e => (.error e, c, t2, pool)
    | .ok _ =>
      (.ok resp, { c with subs := setFlag c.subs event_name true }, t2,
        pool ++ [⟨event_name, .checkFlag⟩])

/-- Embedding of `VTSClient.unsubscribe_from_event`
(`src/vtspy/VTSPy.py:1264-1292`): the deactivation request is sent and
acknowledged synchronously; only on a non-error acknowledgment is the
subscription flag flipped to inactive. No thread is touched directly — the
listener observes the flag. -/
def unsubscribe_from_event (c : Client) (event_name : String)
    (request_id : String) (t : Transport) :
    Except PyError Json × Client × Transport :=
  let payload := Json.obj [
    ("apiName", .str "VTubeStudioPublicAPI"),
    ("apiVersion", .str "1.0"),
    ("requestID", .str (if request_id ≠ "" then request_id else c.default_request_id)),
    ("messageType", .str "EventSubscriptionRequest"),
    ("data", .obj [
      ("eventName", .str event_name),
      ("subscribe", .bool false)])]
  let t1 := t.send payload
  match t1.recv with
  | none => (.error .blocked, c, t1)
  | some (resp, t2) =>
    match checkAPIError resp with
    | .error e => (.error e, c, t2)
    | .ok _ =>
      (.ok resp, { c with subs := setFlag c.subs event_name false }, t2)

/-- The state of the subscription subsystem: the Session, the shared
transport, and the pool of listener threads. -/
structure EventSys where
  client : Client
  transport : Transport
  pool : List Listener

/-- One scheduler step of listener thread `i`: its program counter advances
per the loop body; the blocking receive completes only when an inbound frame
is available and consumes it from the same transport the synchronous calls
use. -/
def listenerSysStep (s : EventSys) (i : Nat) : EventSys :=
  match s.pool.get? i with
  | none => s
  | some l =>
    match l.pc with
    | .done => s
    | .recvWait =>
      match s.transport.inbound with
      | [] => s
      | _ :: rest =>
        { s with transport := ⟨s.transport.sent, rest⟩,
                 pool := s.pool.set i ⟨l.event, LPC.next (flagOf s.client.subs l.event) .recvWait⟩ }
    | .checkFlag =>
      let l1 : Listener := ⟨l.event, LPC.next (flagOf s.client.subs l.event) .checkFlag⟩
      { s with pool := s.pool.set i l1 }
    | .handle =>
      let l1 : Listener := ⟨l.event, LPC.next (flagOf s.client.subs l.event) .handle⟩
      { s with pool := s.pool.set i l1 }
    | .sleeping =>
      let l1 : Listener := ⟨l.event, LPC.next (flagOf s.client.subs l.event) .sleeping⟩
      { s with pool := s.pool.set i l1 }

/-- The actions reachable sequences of the subscription subsystem are built
from: the two API calls (with default config and request id) and one
scheduler step of a listener thread. -/
inductive SubAction where
  | subscribe (event : String) : SubAction
  | unsubscribe (event : String) : SubAction
  | lstep (i : Nat) : SubAction

/-- Apply one action to the subsystem state. A raising API call leaves the
state the operation returned. -/
def sysStep (s : EventSys) : SubAction → EventSys
  | .subscribe e =>
    match subscribe_to_event s.client e none "" s.transport s.pool with
    | (_, c1, t1, pool1) => ⟨c1, t1, pool1⟩
  | .unsubscribe e =>
    match unsubscribe_from_event s.client e "" s.transport with
    | (_, c1, t1) => ⟨c1, t1, s.pool⟩
  | .lstep i => listenerSysStep s i

/-- Run a sequence of actions. -/
def sysRun (s : EventSys) : List SubAction → EventSys
  | [] => s
  | a :: rest => sysRun (sysStep s a) rest

/-- Number of live listener threads bound to event `e`. -/
def liveCount (pool : List Listener) (e : String) : Nat :=
  (pool.filter (fun l => l.isLive e)).length

/-- Number of subscribe calls for event `e` in a trace. -/
def countSubs (trace : List SubAction) (e : String) : Nat :=
  (trace.filter (fun a =>
    match a with
    | .subscribe x => decide (x = e)
    | _ => false)).length

theorem length_filter_set_le {α : Type} (p : α → Bool) (xs : List α) (i : Nat)
    (x y : α) (hget : xs.get? i = some x) (himp : p y = true → p x = true) :
    (List.filter p (xs.set i y)).length ≤ (List.filter p xs).length := by
  induction xs generalizing i with
  | nil => simp at hget
  | cons a as ih =>
    cases i with
    | zero =>
      rw [List.get?_cons_zero] at hget
      injection hget with hax
      subst hax
      simp only [List.set]
      by_cases hy : p y
      · have hx : p a = true := himp hy
        simp [List.filter_cons, hy, hx]
      · cases hx : p a
        · simp [List.filter_cons, hy, hx]
        · simp [List.filter_cons, hy, hx]
    | succ n =>
      rw [List.get?_cons_succ] at hget
      simp only [List.set, List.filter_cons]
      by_cases hp : p a
      · simp only [if_pos hp, List.length_cons]
        exact Nat.succ_le_succ (ih n hget)
      · simp only [if_neg hp]
        exact ih n hget

theorem liveCount_set_next_le (pool : List Listener) (i : Nat) (l : Listener)
    (e : String) (pc1 : LPC) (hget : pool.get? i = some l)
    (hpc : l.pc ≠ LPC.done) :
    liveCount (pool.set i ⟨l.event, pc1⟩) e ≤ liveCount pool e := by
  apply length_filter_set_le _ pool i l ⟨l.event, pc1⟩ hget
  intro h
  simp only [Listener.isLive, Bool.and_eq_true, decide_eq_true_eq] at h ⊢
  exact ⟨h.1, hpc⟩

theorem liveCount_listenerSysStep_le (s : EventSys) (i : Nat) (e : String) :
    liveCount (listenerSysStep s i).pool e ≤ liveCount s.pool e := by
  unfold listenerSysStep
  split
  · exact Nat.le_refl _
  · rename_i l hget
    split
    · exact Nat.le_refl _
    · split
      · exact Nat.le_refl _
      · exact liveCount_set_next_le s.pool i l e _ hget (by simp_all)
    · exact liveCount_set_next_le s.pool i l e _ hget (by simp_all)
    · exact liveCount_set_next_le s.pool i l e _ hget (by simp_all)
    · exact liveCount_set_next_le s.pool i l e _ hget (by simp_all)

theorem subscribe_pool_cases (c : Client) (ename : String) (config : Option Json)
    (rid : String) (t : Transport) (pool : List Listener) :
    (subscribe_to_event c ename config rid t pool).2.2.2 = pool ∨
    (subscribe_to_event c ename config rid t pool).2.2.2 =
      pool ++ [⟨ename, LPC.checkFlag⟩] := by
  unfold subscribe_to_event
  dsimp only
  repeat' split
  all_goals first
    | (left; rfl)
    | (right; rfl)

theorem liveCount_append_listener (pool : List Listener) (x e : String) :
    liveCount (pool ++ [(⟨x, LPC.checkFlag⟩ : Listener)]) e =
      liveCount pool e + (if x = e then 1 else 0) := by
  simp only [liveCount, List.filter_append, List.length_append]
  congr 1
  by_cases h : x = e
  · simp [List.filter_cons, Listener.isLive, h]
  · simp [List.filter_cons, Listener.isLive, h]

/-- Claim C5 (amended): the number of live listener threads bound to an
event name is bounded by its initial value plus the number of subscribe
calls for that event in the trace — each successful subscribe starts one
fresh listener, unsubscribing and listener steps never create one. The
original bound of one fails: two consecutive successful subscribes leave two
live listeners (see the counterexample). -/
theorem c5_amended_listener_bound (s : EventSys) (trace : List SubAction)
    (e : String) :
    liveCount (sysRun s trace).pool e ≤ liveCount s.pool e + countSubs trace e := by
  induction trace generalizing s with
  | nil => simp [sysRun, countSubs]
  | cons a rest ih =>
    have hrun : sysRun s (a :: rest) = sysRun (sysStep s a) rest := rfl
    rw [hrun]
    refine Nat.le_trans (ih (sysStep s a)) ?_
    cases a with
    | subscribe x =>
      have hstep : liveCount (sysStep s (SubAction.subscribe x)).pool e ≤
          liveCount s.pool e + (if x = e then 1 else 0) := by
        have hp : (sysStep s (SubAction.subscribe x)).pool =
            (subscribe_to_event s.client x none "" s.transport s.pool).2.2.2 := rfl
        rw [hp]
        rcases subscribe_pool_cases s.client x none "" s.transport s.pool with h | h
        · rw [h]; omega
        · rw [h, liveCount_append_listener]
      have hcount : countSubs (SubAction.subscribe x :: rest) e =
          (if x = e then 1 else 0) + countSubs rest e := by
        simp only [countSubs, List.filter_cons]
        by_cases h : x = e
        · simp [h, Nat.add_comm]
        · simp [h]
      rw [hcount]
      omega
    | unsubscribe x =>
      have hp : (sysStep s (SubAction.unsubscribe x)).pool = s.pool := rfl
      have hcount : countSubs (SubAction.unsubscribe x :: rest) e =
          countSubs rest e := by
        simp [countSubs, List.filter_cons]
      rw [hp, hcount]
    | lstep i =>
      have hp : (sysStep s (SubAction.lstep i)).pool = (listenerSysStep s i).pool := rfl
      have hcount : countSubs (SubAction.lstep i :: rest) e = countSubs rest e := by
        simp [countSubs, List.filter_cons]
      rw [hp, hcount]
      have hle := liveCount_listenerSysStep_le s i e
      omega

/-- A concrete non-error subscription acknowledgment from the host. -/
def demoSubAck : Json :=
  Json.obj [("apiName", Json.str "VTubeStudioPublicAPI"),
    ("apiVersion", Json.str "1.0"),
    ("requestID", Json.str "DemoRequest"),
    ("messageType", Json.str "EventSubscriptionResponse"),
    ("data", Json.obj [("subscribedEventCount", Json.num 1)])]

/-- Counterexample to C5 as stated: two consecutive successful subscribes to
`TestEvent` with no intervening unsubscribe leave two live listener threads
bound to that event name, exceeding one. -/
theorem c5_counterexample_two_listeners :
    liveCount (sysRun ⟨demoClient, ⟨[], [demoSubAck, demoSubAck]⟩, []⟩
      [SubAction.subscribe "TestEvent", SubAction.subscribe "TestEvent"]).pool
      "TestEvent" = 2 := rfl

theorem subscribe_ok_shape (c : Client) (ename : String) (config : Option Json)
    (rid : String) (t : Transport) (pool : List Listener) (resp : Json)
    (rest : List Json) (m : Json)
    (hin : t.inbound = resp :: rest)
    (hm : resp.getField "messageType" = some m) (hne : isAPIErrorVal m = false) :
    ∃ t1, subscribe_to_event c ename config rid t pool =
      (.ok resp, { c with subs := setFlag c.subs ename true }, t1,
        pool ++ [⟨ename, LPC.checkFlag⟩]) ∧
      t1.inbound = rest := by
  unfold subscribe_to_event
  simp only [Transport.send, Transport.recv, hin, checkAPIError, hm, hne,
    Bool.false_eq_true, if_false]
  exact ⟨_, rfl, rfl⟩

theorem unsubscribe_ok_shape (c : Client) (ename rid : String) (t : Transport)
    (resp : Json) (rest : List Json) (m : Json)
    (hin : t.inbound = resp :: rest)
    (hm : resp.getField "messageType" = some m) (hne : isAPIErrorVal m = false) :
    ∃ t1, unsubscribe_from_event c ename rid t =
      (.ok resp, { c with subs := setFlag c.subs ename false }, t1) ∧
      t1.inbound = rest := by
  unfold unsubscribe_from_event
  simp only [Transport.send, Transport.recv, hin, checkAPIError, hm, hne,
    Bool.false_eq_true, if_false]
  exact ⟨_, rfl, rfl⟩

/-- Claim C6: a successful subscribe to `TestEvent` immediately followed by
a successful unsubscribe leaves the `TestEvent` subscription flag false, the
subscribe call having started exactly one listener at the top of its loop.
Once the flag is false, a listener at any point of its loop completes at
most one further (already in-flight) receive, invokes the handler at most
once more (only to process that in-flight message), and terminates within
its remaining loop steps; from the terminated state no event is ever
emitted again. -/
theorem c6_subscribe_unsubscribe_lifecycle (c : Client) (t : Transport)
    (pool : List Listener) (a1 a2 : Json) (rest : List Json) (m1 m2 : Json)
    (hin : t.inbound = a1 :: a2 :: rest)
    (hm1 : a1.getField "messageType" = some m1) (hne1 : isAPIErrorVal m1 = false)
    (hm2 : a2.getField "messageType" = some m2) (hne2 : isAPIErrorVal m2 = false) :
    ∃ resp1 c1 t1 resp2 c2 t2,
      subscribe_to_event c "TestEvent" none "" t pool =
        (.ok resp1, c1, t1, pool ++ [⟨"TestEvent", LPC.checkFlag⟩]) ∧
      unsubscribe_from_event c1 "TestEvent" "" t1 = (.ok resp2, c2, t2) ∧
      flagOf c2.subs "TestEvent" = false ∧
      (∀ pc : LPC,
        (iterEvents false (lpcRank pc) pc).count LEvent.recvComplete ≤ 1 ∧
        (iterEvents false (lpcRank pc) pc).count LEvent.handlerCall ≤ 1 ∧
        iterPC false (lpcRank pc) pc = LPC.done) ∧
    (∀ n, iterEvents false n LPC.done = []) := by
  obtain ⟨t1, hsub, ht1⟩ :=
    subscribe_ok_shape c "TestEvent" none "" t pool a1 (a2 :: rest) m1 hin hm1 hne1
  obtain ⟨t2, huns, ht2⟩ :=
    unsubscribe_ok_shape _ "TestEvent" "" t1 a2 rest m2 ht1 hm2 hne2
  have hdone : ∀ n, iterEvents false n LPC.done = [] := by
    intro n
    induction n with
    | zero => rfl
    | succ k ihk => simp [iterEvents, LPC.events, LPC.next, ihk]
  exact ⟨a1, _, t1, a2, _, t2, hsub, huns,
    flagOf_setFlag_self _ "TestEvent" false, by decide, hdone⟩

/-- Witness for C6: the concrete subscribe/unsubscribe pair against two
non-error acknowledgments. -/
theorem c6_subscribe_unsubscribe_lifecycle_witness :
    ∃ resp1 c1 t1 resp2 c2 t2,
      subscribe_to_event demoClient "TestEvent" none ""
          ⟨[], [demoSubAck, demoSubAck]⟩ [] =
        (.ok resp1, c1, t1, [] ++ [⟨"TestEvent", LPC.checkFlag⟩]) ∧
      unsubscribe_from_event c1 "TestEvent" "" t1 = (.ok resp2, c2, t2) ∧
      flagOf c2.subs "TestEvent" = false ∧
      (∀ pc : LPC,
        (iterEvents false (lpcRank pc) pc).count LEvent.recvComplete ≤ 1 ∧
        (iterEvents false (lpcRank pc) pc).count LEvent.handlerCall ≤ 1 ∧
        iterPC false (lpcRank pc) pc = LPC.done) ∧
    (∀ n, iterEvents false n LPC.done = []) :=
  c6_subscribe_unsubscribe_lifecycle demoClient ⟨[], [demoSubAck, demoSubAck]⟩ []
    demoSubAck demoSubAck [] (Json.str "EventSubscriptionResponse")
    (Json.str "EventSubscriptionResponse") rfl rfl rfl rfl rfl

theorem checkAPIError_ne_ok (resp : Json) (u : Unit)
    (hmt : resp.getField "messageType" = some (.str "APIError")) :
    checkAPIError resp ≠ .ok u := by
  intro h
  rw [checkAPIError, hmt] at h
  simp only [show isAPIErrorVal (Json.str "APIError") = true from rfl, if_true] at h
  repeat' split at h
  all_goals simp at h

/-- Claim C10: if the acknowledgment to `subscribe_to_event` has the error
message-type, the call raises with the Session returned exactly as it was —
the subscription flag keeps its prior value — and the listener pool
unchanged: no thread is created. Likewise an error acknowledgment to
`unsubscribe_from_event` raises with the Session unchanged. -/
theorem c10_subscription_error_atomicity (c : Client) (ename rid1 rid2 : String)
    (config : Option Json) (t : Transport) (resp : Json) (rest : List Json)
    (pool : List Listener)
    (hin : t.inbound = resp :: rest)
    (hmt : resp.getField "messageType" = some (.str "APIError")) :
    (∃ err t1, subscribe_to_event c ename config rid1 t pool =
      (.error err, c, t1, pool)) ∧
    (∃ err t1, unsubscribe_from_event c ename rid2 t = (.error err, c, t1)) := by
  constructor
  · unfold subscribe_to_event
    simp only [Transport.send, Transport.recv, hin]
    cases hchk : checkAPIError resp with
    | ok u => exact absurd hchk (checkAPIError_ne_ok resp u hmt)
    | error err =>
      simp only [hchk]
      exact ⟨err, _, rfl⟩
  · unfold unsubscribe_from_event
    simp only [Transport.send, Transport.recv, hin]
    cases hchk : checkAPIError resp with
    | ok u => exact absurd hchk (checkAPIError_ne_ok resp u hmt)
    | error err =>
      simp only [hchk]
      exact ⟨err, _, rfl⟩

/-- Witness for C10: against the concrete error acknowledgment both calls
raise and leave the Session and the listener pool untouched. -/
theorem c10_subscription_error_atomicity_witness :
    (∃ err t1, subscribe_to_event demoClient "TestEvent" none ""
      ⟨[], [demoErrResp]⟩ [] = (.error err, demoClient, t1, [])) ∧
    (∃ err t1, unsubscribe_from_event demoClient "TestEvent" ""
      ⟨[], [demoErrResp]⟩ = (.error err, demoClient, t1)) :=
  c10_subscription_error_atomicity demoClient "TestEvent" "" "" none
    ⟨[], [demoErrResp]⟩ demoErrResp [] [] rfl rfl
